import Mathlib

/-!
Verification of the color-derivation and theme/style-generation engine of the
ttkbootstrap repository (`src/ttkbootstrap/core/themes.py` and
`src/ttkbootstrap/core/style.py`).

The Python code computes with IEEE floats; here every float is modelled as an
exact fraction of integers (`Frac`).  Decimal literals of the source such as
`0.2` or `0.95` are modelled by the exact rationals 2/10 and 95/100.  Fractions
are kept unnormalized (no gcd reduction) so that every operation is a plain
integer computation; `Frac.toQ` maps a fraction to the rational number it
denotes, and the comparison operators are proved to agree with the rational
ones for well-formed (positive-denominator) fractions.
-/

/-- An exact fraction of integers.  Denominators are kept positive by all the
operations used in the model (`Frac.WF`); fractions are not reduced. -/
structure Frac where
  num : ℤ
  den : ℤ
  deriving DecidableEq, Repr

/-- Well-formedness: the denominator is positive. -/
def Frac.WF (a : Frac) : Prop := 0 < a.den

/-- Embed an integer as a fraction. -/
def Frac.ofInt (n : ℤ) : Frac := ⟨n, 1⟩

/-- Build the fraction n/d; used to model decimal literals of the source
(for example `0.2` becomes `qf 2 10`). -/
def qf (n d : ℤ) : Frac := ⟨n, d⟩

def Frac.zero : Frac := ⟨0, 1⟩

def Frac.one : Frac := ⟨1, 1⟩

def Frac.add (a b : Frac) : Frac := ⟨a.num * b.den + b.num * a.den, a.den * b.den⟩

def Frac.sub (a b : Frac) : Frac := ⟨a.num * b.den - b.num * a.den, a.den * b.den⟩

def Frac.mul (a b : Frac) : Frac := ⟨a.num * b.num, a.den * b.den⟩

/-- Division of fractions.  The sign of the divisor's numerator is moved into
the numerator so that denominators stay positive.  Python raises
`ZeroDivisionError` on a zero divisor; the modelled code never divides by
zero (every division is guarded), so the zero case is mapped to 0/1. -/
def Frac.div (a b : Frac) : Frac :=
  if 0 < b.num then ⟨a.num * b.den, a.den * b.num⟩
  else if b.num < 0 then ⟨-(a.num * b.den), -(a.den * b.num)⟩
  else ⟨0, 1⟩

/-- Numeric comparison (Python `<=`), by cross multiplication. -/
def Frac.le (a b : Frac) : Prop := a.num * b.den ≤ b.num * a.den

/-- Numeric comparison (Python `<`), by cross multiplication. -/
def Frac.lt (a b : Frac) : Prop := a.num * b.den < b.num * a.den

/-- Numeric equality (Python `==`), by cross multiplication. -/
def Frac.equiv (a b : Frac) : Prop := a.num * b.den = b.num * a.den

instance (a b : Frac) : Decidable (Frac.le a b) := by unfold Frac.le; infer_instance

instance (a b : Frac) : Decidable (Frac.lt a b) := by unfold Frac.lt; infer_instance

instance (a b : Frac) : Decidable (Frac.equiv a b) := by unfold Frac.equiv; infer_instance

/-- Python `max(a, b)`: returns the second argument only when it is strictly
greater (ties keep the first argument). -/
def pymax (a b : Frac) : Frac := if Frac.lt a b then b else a

/-- Python `min(a, b)`: returns the second argument only when it is strictly
smaller (ties keep the first argument). -/
def pymin (a b : Frac) : Frac := if Frac.lt b a then b else a

/-- Mathematical floor of a fraction (Python `math.floor`, and the rounding
used by the `%` operator). -/
def Frac.floor (a : Frac) : ℤ := Int.fdiv a.num a.den

/-- Python `int(x)`: truncation toward zero. -/
def Frac.trunc (a : Frac) : ℤ := Int.tdiv a.num a.den

/-- Python `x % 1.0` for a float x: `x - floor x`, always in `[0, 1)`. -/
def Frac.fract (a : Frac) : Frac := a.sub (Frac.ofInt a.floor)

/-- The rational number denoted by a fraction. -/
def Frac.toQ (a : Frac) : ℚ := (a.num : ℚ) / (a.den : ℚ)

/-!
Color primitives from `src/ttkbootstrap/core/themes.py` (class ThemeColors)
and from the CPython standard library module `colorsys` that it imports.
Python strings are modelled as `String`/`List Char`; fallible operations
(`int(s, 16)` raising ValueError, a missing positional argument raising
TypeError) return `Option`/`Except`.
-/

/-- Errors raised by the modelled Python code. -/
inductive PyErr where
  | typeError
  | valueError
  deriving DecidableEq, Repr

/-- Value of one hexadecimal digit, as accepted by Python `int(c, 16)`. -/
def hexDigitVal? (c : Char) : Option ℕ :=
  if '0' ≤ c ∧ c ≤ '9' then some (c.toNat - 48)
  else if 'a' ≤ c ∧ c ≤ 'f' then some (c.toNat - 87)
  else if 'A' ≤ c ∧ c ≤ 'F' then some (c.toNat - 55)
  else none

/-- Python `int(s, 16)`: the value of a non-empty string of hexadecimal
digits, `none` (ValueError) otherwise.  Python additionally accepts an
optional sign, surrounding whitespace, underscores and an `0x` marker; the
slices of hexadecimal color strings fed to it by this code contain none of
those, so they are modelled as plain digit strings. -/
def int16? (s : List Char) : Option ℕ :=
  match s with
  | [] => none
  | _ =>
    s.foldl
      (fun acc c =>
        match acc, hexDigitVal? c with
        | some a, some d => some (a * 16 + d)
        | _, _ => none)
      (some 0)

/-- Python `round(x, 2)` as used on `k / 255`: round to a multiple of 1/100.
Python rounds halves to even; for the values `k / 255` reaching this call a
tie would need `51 ∣ 40 * k`, hence `51 ∣ k`, which makes `20 * k / 51` a
whole (even-doubled) number and never a half — so round-half-up, used here,
coincides with Python's rounding on every reachable input. -/
def pyRound2 (a : Frac) : Frac :=
  ⟨Int.fdiv (2 * (a.num * 100) + a.den) (2 * a.den), 100⟩

/-- ThemeColors.hex_to_rgb (themes.py lines 147-167).  Converts a hexadecimal
color string to an (r, g, b) triple of floats rounded to two decimals.
Returns `none` where Python raises ValueError (a slice that is not a plain
hexadecimal numeral). -/
def hex_to_rgb (color : String) : Option (Frac × Frac × Frac) :=
  let cs := color.toList
  if cs.length = 4 then
    -- 3 digit hexadecimal colors: color[1], color[2], color[3]
    match int16? ((cs.drop 1).take 1), int16? ((cs.drop 2).take 1),
        int16? ((cs.drop 3).take 1) with
    | some r, some g, some b =>
      some (pyRound2 (qf r 255), pyRound2 (qf g 255), pyRound2 (qf b 255))
    | _, _, _ => none
  else
    -- 6 digit hexadecimal colors: color[1:3], color[3:5], color[5:]
    match int16? ((cs.drop 1).take 2), int16? ((cs.drop 3).take 2),
        int16? (cs.drop 5) with
    | some r, some g, some b =>
      some (pyRound2 (qf r 255), pyRound2 (qf g 255), pyRound2 (qf b 255))
    | _, _, _ => none

/-- Lowercase hexadecimal digit character, as produced by Python format
specifier `x`. -/
def hexDigitChar (n : ℕ) : Char :=
  if n < 10 then Char.ofNat (48 + n) else Char.ofNat (87 + n)

/-- Two-digit lowercase hexadecimal rendering (`"{:02x}".format n` for
n < 256). -/
def toHex2 (n : ℕ) : List Char :=
  [hexDigitChar (n / 16), hexDigitChar (n % 16)]

/-- Python `max(0, min(int(x * 255), 255))` from rgb_to_hex. -/
def clamp255 (x : Frac) : ℕ :=
  (max 0 (min ((x.mul (Frac.ofInt 255)).trunc) 255)).toNat

/-- ThemeColors.rgb_to_hex (themes.py lines 169-184): scale each channel by
255, truncate, clamp to `[0, 255]` and render as `#rrggbb`. -/
def rgb_to_hex (r g b : Frac) : String :=
  String.mk ('#' :: (toHex2 (clamp255 r) ++ toHex2 (clamp255 g) ++ toHex2 (clamp255 b)))

/-- colorsys.rgb_to_hsv from the CPython standard library, transcribed
verbatim (float equality `==` is numeric equality `Frac.equiv`; `max`/`min`
keep the first of tied arguments as in Python). -/
def rgb_to_hsv (r g b : Frac) : Frac × Frac × Frac :=
  let maxc := pymax (pymax r g) b
  let minc := pymin (pymin r g) b
  let rangec := maxc.sub minc
  let v := maxc
  if minc.equiv maxc then (Frac.zero, Frac.zero, v)
  else
    let s := rangec.div maxc
    let rc := (maxc.sub r).div rangec
    let gc := (maxc.sub g).div rangec
    let bc := (maxc.sub b).div rangec
    let h :=
      if r.equiv maxc then bc.sub gc
      else if g.equiv maxc then (Frac.ofInt 2).add (rc.sub bc)
      else (Frac.ofInt 4).add (gc.sub rc)
    ((h.div (Frac.ofInt 6)).fract, s, v)

/-- colorsys.hsv_to_rgb from the CPython standard library, transcribed
verbatim; `int()` truncates toward zero and `i % 6` is Python's
nonnegative remainder.  The final branch is Python's `i == 5` case (the
remainder is always in 0..5, so the function never falls through). -/
def hsv_to_rgb (h s v : Frac) : Frac × Frac × Frac :=
  if s.equiv Frac.zero then (v, v, v)
  else
    let i := (h.mul (Frac.ofInt 6)).trunc
    let f := (h.mul (Frac.ofInt 6)).sub (Frac.ofInt i)
    let p := v.mul (Frac.one.sub s)
    let q' := v.mul (Frac.one.sub (s.mul f))
    let t := v.mul (Frac.one.sub (s.mul (Frac.one.sub f)))
    let i := i % 6
    if i = 0 then (v, t, p)
    else if i = 1 then (q', v, p)
    else if i = 2 then (p, v, t)
    else if i = 3 then (p, q', v)
    else if i = 4 then (t, p, v)
    else (v, p, q')

/-- Python `"#" in str(color)` for a string color. -/
def containsHash (s : String) : Bool := s.toList.contains '#'

/-- ThemeColors.update_hsv (themes.py lines 214-261).  When the string form
of the color has no '#', line 230 calls `ThemeColors.normalize(color)` with a
single argument although `normalize` requires two positional arguments
(color and fallback), so the call raises TypeError before anything else
happens.  Otherwise the color is parsed (ValueError on malformed slices),
converted to HSV, each component is scaled by one plus its delta with the
clamping of lines 236-258, and the result is converted back to a
hexadecimal string. -/
def update_hsv (color : String) (hd sd vd : Frac) : Except PyErr String :=
  if containsHash color = false then Except.error PyErr.typeError
  else
    match hex_to_rgb color with
    | none => Except.error PyErr.valueError
    | some (r, g, b) =>
      let hsv := rgb_to_hsv r g b
      let h := hsv.1
      let s := hsv.2.1
      let v := hsv.2.2
      -- hue
      let h :=
        if Frac.lt Frac.one (h.mul (Frac.one.add hd)) then Frac.one
        else if Frac.lt (h.mul (Frac.one.add hd)) Frac.zero then Frac.zero
        else h.mul (Frac.one.add hd)
      -- saturation
      let s :=
        if Frac.lt Frac.one (s.mul (Frac.one.add sd)) then Frac.one
        else if Frac.lt (s.mul (Frac.one.add sd)) Frac.zero then Frac.zero
        else s.mul (Frac.one.add sd)
      -- value
      let v :=
        if Frac.lt Frac.one (v.mul (Frac.one.add vd)) then qf 95 100
        else if Frac.lt (v.mul (Frac.one.add vd)) (qf 5 100) then qf 5 100
        else v.mul (Frac.one.add vd)
      let rgb := hsv_to_rgb h s v
      Except.ok (rgb_to_hex rgb.1 rgb.2.1 rgb.2.2)

/-- The hue transform of update_hsv in isolation: scale by `1 + hd` and clamp
the result into `[0, 1]`. -/
def hueShift (h hd : Frac) : Frac :=
  if Frac.lt Frac.one (h.mul (Frac.one.add hd)) then Frac.one
  else if Frac.lt (h.mul (Frac.one.add hd)) Frac.zero then Frac.zero
  else h.mul (Frac.one.add hd)

/-- The saturation transform of update_hsv in isolation. -/
def satShift (s sd : Frac) : Frac :=
  if Frac.lt Frac.one (s.mul (Frac.one.add sd)) then Frac.one
  else if Frac.lt (s.mul (Frac.one.add sd)) Frac.zero then Frac.zero
  else s.mul (Frac.one.add sd)

/-- The value transform of update_hsv in isolation: an overflowing scaled
value is replaced by 0.95 and a scaled value below 0.05 by 0.05. -/
def valShift (v vd : Frac) : Frac :=
  if Frac.lt Frac.one (v.mul (Frac.one.add vd)) then qf 95 100
  else if Frac.lt (v.mul (Frac.one.add vd)) (qf 5 100) then qf 5 100
  else v.mul (Frac.one.add vd)

/-!
The theme data model of `src/ttkbootstrap/core/themes.py`: `ThemeColors`
(13 named colors, lines 45-89), its iteration methods and `normalize`
(lines 186-212), and `ThemeDefinition` (lines 264-278).
-/

/-- ThemeColors.__init__ (themes.py lines 45-89): a palette of exactly 13
named colors, in the positional order of the constructor. -/
structure ThemeColors where
  primary : String
  secondary : String
  success : String
  info : String
  warning : String
  danger : String
  bg : String
  fg : String
  selectbg : String
  selectfg : String
  border : String
  inputfg : String
  inputbg : String
  deriving DecidableEq, Repr

/-- ThemeColors.get (themes.py line 100): `self.__dict__.get(color_label)`,
which yields the attribute for one of the 13 labels and Python `None`
(here `none`) for any other key. -/
def ThemeColors.get (c : ThemeColors) (label : String) : Option String :=
  if label = "primary" then some c.primary
  else if label = "secondary" then some c.secondary
  else if label = "success" then some c.success
  else if label = "info" then some c.info
  else if label = "warning" then some c.warning
  else if label = "danger" then some c.danger
  else if label = "bg" then some c.bg
  else if label = "fg" then some c.fg
  else if label = "selectbg" then some c.selectbg
  else if label = "selectfg" then some c.selectfg
  else if label = "border" then some c.border
  else if label = "inputfg" then some c.inputfg
  else if label = "inputbg" then some c.inputbg
  else none

/-- ThemeColors.__iter__ (themes.py line 117): iterating a ThemeColors
instance yields exactly these six accent labels, in this order. -/
def ThemeColors.iterLabels : List String :=
  ["primary", "secondary", "success", "info", "warning", "danger"]

/-- ThemeColors.label_iter (themes.py lines 122-145): all 13 theme color
labels, in this order. -/
def ThemeColors.label_iter : List String :=
  ["primary", "secondary", "success", "info", "warning", "danger",
   "bg", "fg", "selectbg", "selectfg", "border", "inputfg", "inputbg"]

/-- Decides whether `p` occurs as a contiguous substring of `s`. -/
def listInfix (p s : List Char) : Bool :=
  (List.range (s.length + 1)).any (fun i => p.isPrefixOf (s.drop i))

/-- Python `re.search(COLOR_PATTERN, color)` for the pattern
`primary|secondary|success|info|warning|danger` (themes.py line 8):
true when any of the six accent names occurs anywhere in the string. -/
def colorPatternSearch (c : String) : Bool :=
  ["primary", "secondary", "success", "info", "warning", "danger"].any
    (fun p => listInfix p.toList c.toList)

/-- A colormap of named colors with their RGB channels: models both the
membership test `color in COLORMAP` (the repository's `colormap.json`) and
the channel lookup `ImageColor.getrgb(color)` from PIL. -/
abbrev Colormap : Type := List (String × ℤ × ℤ × ℤ)

/-- Modelled from the spec: the repository reads the data file
`colormap.json` (not present under src/) to recognize "a recognized named
color", and PIL's `ImageColor.getrgb` supplies the channels; both follow the
standard CSS named colors, of which a representative sample is given here.
`normalize` takes the colormap as an explicit parameter, so each theorem
names the colormap it is about. -/
def COLORMAP : Colormap :=
  [("white", 255, 255, 255), ("black", 0, 0, 0), ("red", 255, 0, 0),
   ("lime", 0, 255, 0), ("blue", 0, 0, 255), ("yellow", 255, 255, 0),
   ("cyan", 0, 255, 255), ("magenta", 255, 0, 255), ("tomato", 255, 99, 71),
   ("forestgreen", 34, 139, 34), ("orange", 255, 165, 0),
   ("gray", 128, 128, 128)]

/-- Find a named color in a colormap. -/
def Colormap.find (cmap : Colormap) (c : String) : Option (ℤ × ℤ × ℤ) :=
  match cmap with
  | [] => none
  | (k, v) :: rest => if k = c then some v else Colormap.find rest c

/-- The branch of ThemeColors.normalize at themes.py lines 208-212: a
recognized named color (the redundant `'#' not in color` test of line 208
included) is converted with `rgb_to_hex(*ImageColor.getrgb(color))`,
anything else falls back. -/
def normalizeNamed (cmap : Colormap) (c : String) (fallback : String) : Option String :=
  if containsHash c = false then
    match cmap.find c with
    | some (r, g, b) =>
      some (rgb_to_hex (Frac.ofInt r) (Frac.ofInt g) (Frac.ofInt b))
    | none => some fallback
  else some fallback

/-- ThemeColors.normalize (themes.py lines 186-212).  `color` is `none` for
Python None; the result is `none` when the Python function returns None
(which happens through `theme_colors.get(color)` on a string that merely
contains an accent name). -/
def ThemeColors.normalize (cmap : Colormap) (color : Option String) (fallback : String)
    (theme_colors : Option ThemeColors) : Option String :=
  match color with
  | none => some fallback
  | some c =>
    if c = "" then some fallback
    else if containsHash c then some c
    else
      match theme_colors, colorPatternSearch c with
      | some tc, true => tc.get c
      | some _, false => normalizeNamed cmap c fallback
      | none, _ => normalizeNamed cmap c fallback

/-- ThemeDefinition.__init__ (themes.py lines 264-278): a named theme
carrying the light/dark type flag, the font string and the palette. -/
structure ThemeDefinition where
  name : String
  type : String
  font : String
  colors : ThemeColors
  deriving DecidableEq, Repr

/-- Modelled from the spec: `DEFAULT_FONT` is read at import time from the
"flatly" entry of the data file `themes.json`, which is not present under
src/; the spec describes the theme input as carrying "a font string" and
`ThemeDefinition` defaults its font to helvetica.  No claim depends on the
exact value. -/
def DEFAULT_FONT : String := "helvetica"

/-- Python `str(x)` for an optional string: None prints as "None". -/
def pyStr (o : Option String) : String :=
  match o with
  | some s => s
  | none => "None"

/-!
The style engine of `src/ttkbootstrap/core/style.py` (class StylerTTK).
Settings dictionaries are modelled as association lists from style name to a
table (association list from table key to a Python value); PIL images are
modelled by their construction parameters and draw calls; `uuid4()` is
modelled by an element number supplied by the caller, a fresh one per call.
-/

/-- One PIL ImageDraw call issued by the style engine. -/
inductive DrawOp where
  | roundedRectangle (xy : List ℤ) (radius : ℕ) (outline : String) (width : ℕ) (fill : String)
  | text (x y : ℤ) (txt : String) (fontSize : ℕ) (fill : String)
  deriving DecidableEq, Repr

/-- A PIL image, identified by its construction mode, current size and the
draw calls made on it.  `ImageTk.PhotoImage` wrapping preserves content and
is not modelled separately. -/
structure Img where
  mode : String
  size : ℕ × ℕ
  ops : List DrawOp
  deriving DecidableEq, Repr

/-- PIL `Image.resize`: rescales the content to a new size (the draw calls,
describing content, are kept). -/
def Img.resize (im : Img) (sz : ℕ × ℕ) : Img := ⟨im.mode, sz, im.ops⟩

/-- A Python value as it occurs inside a style settings dictionary: strings,
integers, None, tuples/lists (as cons lists), pairs, dictionaries (as lists
of key/value pairs) and images. -/
inductive PyVal where
  | str (s : String)
  | int (n : ℤ)
  | pynone
  | nil
  | cons (hd tl : PyVal)
  | pair (a b : PyVal)
  | img (im : Img)
  deriving DecidableEq, Repr

/-- A Python list or tuple of values. -/
def PyVal.ofList (l : List PyVal) : PyVal := l.foldr PyVal.cons PyVal.nil

/-- A Python dictionary with string keys, in literal order. -/
def pyDict (l : List (String × PyVal)) : PyVal :=
  PyVal.ofList (l.map (fun kv => PyVal.pair (.str kv.1) kv.2))

/-- An optional string as a Python value (None stays None). -/
def pyOptStr (o : Option String) : PyVal :=
  match o with
  | some s => .str s
  | none => .pynone

/-- A list of (state spec, color) pairs, as used in "map" tables. -/
def pyStateList (l : List (String × String)) : PyVal :=
  PyVal.ofList (l.map (fun p => PyVal.pair (.str p.1) (.str p.2)))

/-- A settings dictionary: style name to table, table key (configure, map,
layout, element create) to value. -/
abbrev Settings : Type := List (String × List (String × PyVal))

/-- StylerTTK.style_button (style.py lines 1429-1494).  `background` and
`foreground` are keyword arguments defaulting to None; errors of the
`update_hsv` calls (reachable only when the resolved background or the
theme's inputbg is not a '#' color) propagate. -/
def StylerTTK.style_button (cmap : Colormap) (theme : ThemeDefinition)
    (anchor : String) (background : Option String) (font : String)
    (foreground : Option String) (style : String) : Except PyErr Settings := do
  let foreground' := ThemeColors.normalize cmap foreground theme.colors.selectfg (some theme.colors)
  let background' := ThemeColors.normalize cmap background theme.colors.primary (some theme.colors)
  let pressed ← update_hsv (pyStr background') Frac.zero Frac.zero
    (if theme.type = "light" then qf (-2) 10 else qf 2 10)
  let hover ← update_hsv (pyStr background') Frac.zero Frac.zero
    (if theme.type = "light" then qf (-1) 10 else qf 1 10)
  let disabled_bg ← update_hsv theme.colors.inputbg Frac.zero Frac.zero
    (if theme.type = "light" then qf (-2) 10 else qf (-3) 10)
  let disabled_fg := theme.colors.inputfg
  pure
    [(style,
      [("configure",
        pyDict
          [("anchor", .str anchor),
           ("foreground", pyOptStr foreground'),
           ("background", pyOptStr background'),
           ("bordercolor", pyOptStr background'),
           ("darkcolor", pyOptStr background'),
           ("lightcolor", pyOptStr background'),
           ("relief", .str "raised"),
           ("font", .str font),
           ("focusthickness", .int 0),
           ("focuscolor", .str ""),
           ("padding", PyVal.ofList [.int 10, .int 5])]),
       ("map",
        pyDict
          [("foreground", pyStateList [("disabled", disabled_fg)]),
           ("background",
            pyStateList
              [("disabled", disabled_bg), ("pressed !disabled", pressed),
               ("hover !disabled", hover)]),
           ("bordercolor",
            pyStateList [("disabled", disabled_bg), ("hover !disabled", hover)]),
           ("darkcolor",
            pyStateList
              [("disabled", disabled_bg), ("pressed !disabled", pressed),
               ("hover !disabled", hover)]),
           ("lightcolor",
            pyStateList
              [("disabled", disabled_bg), ("pressed !disabled", pressed),
               ("hover !disabled", hover)])])])]

/-- StylerTTK.style_checkbutton_images (style.py lines 2614-2652): draw the
off, on and disabled checkbutton bitmaps on 134 by 134 canvases, resize each
to 14 by 14, and return the entries added to the shared theme_images
mapping. -/
def StylerTTK.style_checkbutton_images (theme : ThemeDefinition)
    (indicatorcolor : String) (element : String) :
    Except PyErr (List (String × Img)) := do
  let outline := theme.colors.selectbg
  let fill := if theme.type = "light" then theme.colors.inputbg else theme.colors.selectfg
  let disabled_fg ← update_hsv theme.colors.inputbg Frac.zero Frac.zero
    (if theme.type = "light" then qf (-2) 10 else qf (-3) 10)
  let disabled_bg := if theme.type = "light" then theme.colors.inputbg else disabled_fg
  let cb_off : Img :=
    ⟨"RGBA", (134, 134), [.roundedRectangle [2, 2, 132, 132] 16 outline 3 fill]⟩
  let cb_on : Img :=
    ⟨"RGBA", (134, 134),
     [.roundedRectangle [2, 2, 132, 132] 16 indicatorcolor 3 indicatorcolor,
      .text 20 8 "✓" 130 theme.colors.selectfg]⟩
  let cb_disabled : Img :=
    ⟨"RGBA", (134, 134), [.roundedRectangle [2, 2, 132, 132] 16 disabled_fg 3 disabled_bg]⟩
  pure
    [(element ++ "_cb_off", cb_off.resize (14, 14)),
     (element ++ "_cb_on", cb_on.resize (14, 14)),
     (element ++ "_cb_disabled", cb_disabled.resize (14, 14))]

/-- Reading an image back from the theme_images entries just written. -/
def imgLookup (l : List (String × Img)) (k : String) : Img :=
  (l.lookup k).getD ⟨"", (0, 0), []⟩

/-- StylerTTK.style_checkbutton (style.py lines 2536-2611).  The source
draws a fresh `uuid4()` for the indicator element name; the model takes the
drawn identifier as the extra argument `element` (successive calls receive
distinct numbers).  Returns the settings and the theme_images entries the
call registers. -/
def StylerTTK.style_checkbutton (cmap : Colormap) (theme : ThemeDefinition)
    (background : Option String) (font : String) (foreground : Option String)
    (indicatorcolor : Option String) (style : String) (element : ℕ) :
    Except PyErr (Settings × List (String × Img)) := do
  let background' := ThemeColors.normalize cmap background theme.colors.bg (some theme.colors)
  let foreground' := ThemeColors.normalize cmap foreground theme.colors.fg (some theme.colors)
  let indicatorcolor' := ThemeColors.normalize cmap indicatorcolor theme.colors.primary (some theme.colors)
  let disabled ← update_hsv theme.colors.inputbg Frac.zero Frac.zero
    (if theme.type = "light" then qf (-2) 10 else qf (-3) 10)
  let e := toString element
  let imgs ← StylerTTK.style_checkbutton_images theme (pyStr indicatorcolor') e
  let cb_off := imgLookup imgs (e ++ "_cb_off")
  let cb_on := imgLookup imgs (e ++ "_cb_on")
  let cb_disabled := imgLookup imgs (e ++ "_cb_disabled")
  let active ← update_hsv (pyStr indicatorcolor') Frac.zero Frac.zero (qf (-2) 10)
  let settings : Settings :=
    [(e ++ ".Checkbutton.indicator",
      [("element create",
        PyVal.ofList
          [.str "image", .img cb_on,
           .pair (.str "disabled") (.img cb_disabled),
           .pair (.str "!selected") (.img cb_off),
           pyDict [("width", .int 20), ("border", .int 4), ("sticky", .str "w")]])]),
     (style,
      [("configure",
        pyDict
          [("background", pyOptStr background'),
           ("foreground", pyOptStr foreground'),
           ("focuscolor", .str ""),
           ("font", .str font)]),
       ("layout",
        PyVal.ofList
          [.pair (.str "Checkbutton.padding")
            (pyDict
              [("children",
                PyVal.ofList
                  [.pair (.str (e ++ ".Checkbutton.indicator"))
                    (pyDict [("side", .str "left"), ("sticky", .str "")]),
                   .pair (.str "Checkbutton.focus")
                    (pyDict
                      [("children",
                        PyVal.ofList
                          [.pair (.str "Checkbutton.label")
                            (pyDict [("sticky", .str "nswe")])]),
                       ("side", .str "left"),
                       ("sticky", .str "")])]),
               ("sticky", .str "nswe")])]),
       ("map",
        pyDict
          [("foreground",
            pyStateList [("disabled", disabled), ("active", active)])])])]
  pure (settings, imgs)

/-!
Name-level model of StylerTTK.update_ttk_theme_settings (style.py lines
321-460) and of the table-key structure of all settings-returning
style functions.  The themed loop (lines 372-458) iterates over the theme's
colors and adds, for every accent color, one named style per widget kind.
-/

/-- The style names built by the body of the `for color in self.theme.colors`
loop of update_ttk_theme_settings (style.py lines 373-458), in source order:
each is an f-string `color.Suffix`. -/
def themed_styles (color : String) : List String :=
  [color ++ ".Treeview",
   color ++ ".TButton",
   color ++ ".Link.TButton",
   color ++ ".TSizegrip",
   color ++ ".TFrame",
   color ++ ".Toolbutton",
   color ++ ".TCombobox",
   color ++ ".TSpinbox",
   color ++ ".TEntry",
   color ++ ".TLabel",
   color ++ ".Inverse.TLabel",
   color ++ ".TLabelframe",
   color ++ ".TPanedwindow",
   color ++ ".TMenubutton",
   color ++ ".TNotebook",
   color ++ ".Horizontal.TFloodgauge",
   color ++ ".Vertical.TFloodgauge",
   color ++ ".Horizontal.TProgressbar",
   color ++ ".Striped.Horizontal.TProgressbar",
   color ++ ".Vertical.TProgressbar",
   color ++ ".Striped.Vertical.TProgressbar",
   color ++ ".Vertical.TScrollbar",
   color ++ ".Horizontal.TScrollbar",
   color ++ ".Rounded.Vertical.TScrollbar",
   color ++ ".Rounded.Horizontal.TScrollbar",
   color ++ ".Vertical.TScale",
   color ++ ".Horizontal.TScale",
   color ++ ".Outline.TMenubutton",
   color ++ ".Outline.Toolbutton",
   color ++ ".Roundtoggle.Toolbutton",
   color ++ ".Squaretoggle.Toolbutton",
   color ++ ".TCheckbutton",
   color ++ ".TRadiobutton",
   color ++ ".Horizontal.TSeparator",
   color ++ ".Vertical.TSeparator",
   color ++ ".Outline.TButton"]

/-- The widget-kind suffixes of the themed loop, one per widget style it
themes. -/
def themedStyleSuffixes : List String :=
  ["Treeview", "TButton", "Link.TButton", "TSizegrip", "TFrame", "Toolbutton",
   "TCombobox", "TSpinbox", "TEntry", "TLabel", "Inverse.TLabel",
   "TLabelframe", "TPanedwindow", "TMenubutton", "TNotebook",
   "Horizontal.TFloodgauge", "Vertical.TFloodgauge",
   "Horizontal.TProgressbar", "Striped.Horizontal.TProgressbar",
   "Vertical.TProgressbar", "Striped.Vertical.TProgressbar",
   "Vertical.TScrollbar", "Horizontal.TScrollbar",
   "Rounded.Vertical.TScrollbar", "Rounded.Horizontal.TScrollbar",
   "Vertical.TScale", "Horizontal.TScale", "Outline.TMenubutton",
   "Outline.Toolbutton", "Roundtoggle.Toolbutton", "Squaretoggle.Toolbutton",
   "TCheckbutton", "TRadiobutton", "Horizontal.TSeparator",
   "Vertical.TSeparator", "Outline.TButton"]

/-- All themed style names produced by the loop over the six accent colors
of ThemeColors.__iter__. -/
def themedLoopStyleNames : List String :=
  ThemeColors.iterLabels.flatMap themed_styles

/-- The settings-returning `style_*` static methods of StylerTTK (the
`style_*_images` helpers return nothing and register images instead). -/
inductive StyleFn where
  | combobox | separator | progressbar | scale | floodgauge | scrollbar
  | spinbox | treeitem | treeview | frame | button | outline_button
  | link_button | toolbutton | outline_toolbutton | entry | radiobutton
  | label | labelframe | roundtoggle | squaretoggle | checkbutton
  | menubutton | outline_menubutton | notebook | panedwindow | sizegrip
  deriving DecidableEq, Repr

/-- The table keys occurring (over all branches, in body order) in the
settings dictionary each style function returns, transcribed from
style.py. -/
def tableKeys (f : StyleFn) : List String :=
  match f with
  | .combobox => ["element create", "element create", "layout", "configure", "map"]
  | .separator => ["element create", "layout", "element create", "layout"]
  | .progressbar => ["element create", "layout", "configure", "element create", "layout", "configure"]
  | .scale => ["element create", "element create", "layout", "element create", "element create", "layout"]
  | .floodgauge => ["element create", "element create", "layout", "configure"]
  | .scrollbar => ["element create", "element create", "layout", "element create", "element create", "layout", "layout", "element create", "element create", "layout"]
  | .spinbox => ["element create", "element create", "element create", "layout", "configure", "map"]
  | .treeitem => ["element create"]
  | .treeview => ["layout", "configure", "map", "configure"]
  | .frame => ["configure"]
  | .button => ["configure", "map"]
  | .outline_button => ["configure", "map"]
  | .link_button => ["configure", "map"]
  | .toolbutton => ["configure", "map"]
  | .outline_toolbutton => ["configure", "map"]
  | .entry => ["element create", "configure", "map"]
  | .radiobutton => ["element create", "configure", "layout", "map"]
  | .label => ["configure"]
  | .labelframe => ["configure", "configure"]
  | .roundtoggle => ["element create", "configure", "layout", "map"]
  | .squaretoggle => ["element create", "configure", "layout", "map"]
  | .checkbutton => ["element create", "configure", "layout", "map"]
  | .menubutton => ["configure", "map"]
  | .outline_menubutton => ["configure", "map"]
  | .notebook => ["configure", "configure", "map"]
  | .panedwindow => ["configure", "configure"]
  | .sizegrip => ["configure", "layout", "element create"]

/-- The four table kinds of the spec: configure, map, layout, element
create. -/
def allowedTableKeys : List String :=
  ["configure", "map", "layout", "element create"]

/-- Every table key of every style table of a settings dictionary lies in
`allowed`. -/
def settingsKeysIn (s : Settings) (allowed : List String) : Prop :=
  ∀ p ∈ s, ∀ q ∈ p.2, q.1 ∈ allowed

instance (s : Settings) (allowed : List String) :
    Decidable (settingsKeysIn s allowed) := by
  unfold settingsKeysIn
  infer_instance

/-- First value stored under a key in a settings dictionary (Python dict
indexing). -/
def lookupTab (s : Settings) (k : String) : Option (List (String × PyVal)) :=
  match s with
  | [] => none
  | (k', v) :: rest => if k' = k then some v else lookupTab rest k

/-- Python `dict.update` on settings dictionaries: existing keys keep their
position and receive the new value, new keys are appended. -/
def updateSettings (d e : Settings) : Settings :=
  d.map (fun kv =>
    match lookupTab e kv.1 with
    | some v => (kv.1, v)
    | none => kv)
  ++ e.filter (fun kv => (lookupTab d kv.1).isNone)

/-- StylerTTK.create_theme (style.py lines 316-319): the accumulated
settings dictionary is handed, together with the theme name and the parent
theme "clam", to the toolkit's `theme_create` call; the triple of those
arguments is the model of that call. -/
def StylerTTK.create_theme (theme : ThemeDefinition) (settings : Settings) :
    String × String × Settings :=
  (theme.name, "clam", settings)

/-- Characters of lowercase hexadecimal digits. -/
def hexChars : List Char := "0123456789abcdef".toList

/-- A hexadecimal color string: '#' followed by six lowercase hexadecimal
digits. -/
def isHexColor (s : String) : Prop :=
  s.length = 7 ∧ s.toList.head? = some '#' ∧
    (s.toList.drop 1).all (fun c => hexChars.contains c) = true

/-- The straight hexadecimal rendering of CSS channels in 0..255 (what "the
hex conversion" of a named color denotes). -/
def cssHex (r g b : ℤ) : String :=
  String.mk ('#' :: (toHex2 r.toNat ++ toHex2 g.toNat ++ toHex2 b.toNat))

/-- ThemeColors.normalize as the claim describes it: fallback for empty
input, verbatim for '#' strings, theme lookup when the color is exactly one
of the six accent names and theme colors are provided, the hex conversion of
a recognized named color, and the fallback in every remaining case. -/
def normalizeClaim (cmap : Colormap) (color : Option String) (fallback : String)
    (theme_colors : Option ThemeColors) : Option String :=
  match color with
  | none => some fallback
  | some c =>
    if c = "" then some fallback
    else if containsHash c then some c
    else
      match theme_colors, decide (c ∈ ThemeColors.iterLabels) with
      | some tc, true => tc.get c
      | _, _ =>
        match cmap.find c with
        | some (r, g, b) => some (cssHex r g b)
        | none => some fallback

/-- A concrete light palette (hexadecimal colors in the style of the
built-in flatly theme), used for witnesses and counterexamples. -/
def tc0 : ThemeColors :=
  ⟨"#2c3e50", "#95a5a6", "#18bc9c", "#3498db", "#f39c12", "#e74c3c",
   "#ffffff", "#212529", "#3498db", "#ffffff", "#ced4da", "#212529", "#ecf0f1"⟩

/-- A concrete light theme over `tc0`. -/
def t0 : ThemeDefinition := ⟨"flatly", "light", DEFAULT_FONT, tc0⟩

/-- The same palette and type under a different theme name (for the
determinism witnesses). -/
def t0b : ThemeDefinition := ⟨"flatly-copy", "light", "courier", tc0⟩

/-- Decidable equality for Except values (not provided by the core
library). -/
instance {ε α : Type} [DecidableEq ε] [DecidableEq α] : DecidableEq (Except ε α) :=
  fun x y =>
    match x, y with
    | .ok a, .ok b =>
      if h : a = b then isTrue (by rw [h])
      else isFalse (fun he => h (Except.ok.inj he))
    | .error a, .error b =>
      if h : a = b then isTrue (by rw [h])
      else isFalse (fun he => h (Except.error.inj he))
    | .ok _, .error _ => isFalse (fun he => Except.noConfusion he)
    | .error _, .ok _ => isFalse (fun he => Except.noConfusion he)

/-- Look up one table of one style in a settings dictionary. -/
def tableLookup (s : Settings) (styleName k : String) : Option PyVal :=
  match s.lookup styleName with
  | some t => t.lookup k
  | none => none

/-!
Helper lemmas shared by the claim theorems.
-/

theorem Frac.WF_ofInt (n : ℤ) : (Frac.ofInt n).WF := by
  simp [Frac.ofInt, Frac.WF]

theorem Frac.WF_add {a b : Frac} (ha : a.WF) (hb : b.WF) : (a.add b).WF :=
  mul_pos ha hb

theorem Frac.WF_sub {a b : Frac} (ha : a.WF) (hb : b.WF) : (a.sub b).WF :=
  mul_pos ha hb

theorem Frac.WF_mul {a b : Frac} (ha : a.WF) (hb : b.WF) : (a.mul b).WF :=
  mul_pos ha hb

theorem Frac.toQ_ofInt (n : ℤ) : (Frac.ofInt n).toQ = (n : ℚ) := by
  simp [Frac.ofInt, Frac.toQ]

theorem Frac.toQ_add {a b : Frac} (ha : a.WF) (hb : b.WF) :
    (a.add b).toQ = a.toQ + b.toQ := by
  have ha' : (a.den : ℚ) ≠ 0 := by exact_mod_cast ha.ne'
  have hb' : (b.den : ℚ) ≠ 0 := by exact_mod_cast hb.ne'
  unfold Frac.toQ Frac.add
  push_cast
  field_simp

theorem Frac.toQ_sub {a b : Frac} (ha : a.WF) (hb : b.WF) :
    (a.sub b).toQ = a.toQ - b.toQ := by
  have ha' : (a.den : ℚ) ≠ 0 := by exact_mod_cast ha.ne'
  have hb' : (b.den : ℚ) ≠ 0 := by exact_mod_cast hb.ne'
  unfold Frac.toQ Frac.sub
  push_cast
  field_simp
  ring

theorem Frac.toQ_mul {a b : Frac} (ha : a.WF) (hb : b.WF) :
    (a.mul b).toQ = a.toQ * b.toQ := by
  have ha' : (a.den : ℚ) ≠ 0 := by exact_mod_cast ha.ne'
  have hb' : (b.den : ℚ) ≠ 0 := by exact_mod_cast hb.ne'
  unfold Frac.toQ Frac.mul
  push_cast
  field_simp

theorem Frac.le_iff {a b : Frac} (ha : a.WF) (hb : b.WF) :
    a.le b ↔ a.toQ ≤ b.toQ := by
  have ha' : (0 : ℚ) < (a.den : ℚ) := by exact_mod_cast ha
  have hb' : (0 : ℚ) < (b.den : ℚ) := by exact_mod_cast hb
  unfold Frac.le Frac.toQ
  rw [div_le_div_iff₀ ha' hb']
  constructor
  · intro h; exact_mod_cast h
  · intro h; exact_mod_cast h

theorem Frac.lt_iff {a b : Frac} (ha : a.WF) (hb : b.WF) :
    a.lt b ↔ a.toQ < b.toQ := by
  have ha' : (0 : ℚ) < (a.den : ℚ) := by exact_mod_cast ha
  have hb' : (0 : ℚ) < (b.den : ℚ) := by exact_mod_cast hb
  unfold Frac.lt Frac.toQ
  rw [div_lt_div_iff₀ ha' hb']
  constructor
  · intro h; exact_mod_cast h
  · intro h; exact_mod_cast h

theorem Frac.equiv_iff {a b : Frac} (ha : a.WF) (hb : b.WF) :
    a.equiv b ↔ a.toQ = b.toQ := by
  have ha' : (a.den : ℚ) ≠ 0 := by exact_mod_cast ha.ne'
  have hb' : (b.den : ℚ) ≠ 0 := by exact_mod_cast hb.ne'
  unfold Frac.equiv Frac.toQ
  rw [div_eq_div_iff ha' hb']
  constructor
  · intro h; exact_mod_cast h
  · intro h; exact_mod_cast h

theorem Frac.WF_one : Frac.one.WF := by simp [Frac.WF, Frac.one]

theorem Frac.WF_zero : Frac.zero.WF := by simp [Frac.WF, Frac.zero]

theorem Frac.toQ_one : Frac.one.toQ = 1 := by
  norm_num [Frac.one, Frac.toQ]

theorem Frac.toQ_zero : Frac.zero.toQ = 0 := by
  norm_num [Frac.zero, Frac.toQ]

/-- The saturation transform has the same text as the hue transform. -/
theorem satShift_eq_hueShift (s sd : Frac) : satShift s sd = hueShift s sd := rfl

/-- Scaling by one plus a delta, seen on rational numbers. -/
theorem scaled_toQ (x d : Frac) (hx : x.WF) (hd : d.WF) :
    (x.mul (Frac.one.add d)).toQ = x.toQ * (1 + d.toQ) := by
  rw [Frac.toQ_mul hx (Frac.WF_add Frac.WF_one hd),
    Frac.toQ_add Frac.WF_one hd, Frac.toQ_one]

theorem scaled_WF (x d : Frac) (hx : x.WF) (hd : d.WF) :
    (x.mul (Frac.one.add d)).WF :=
  Frac.WF_mul hx (Frac.WF_add Frac.WF_one hd)

/-- The hue transform is exactly a clamp of the scaled hue into [0, 1]. -/
theorem hueShift_toQ (x d : Frac) (hx : x.WF) (hd : d.WF) :
    (hueShift x d).toQ = min 1 (max 0 (x.toQ * (1 + d.toQ))) := by
  have hsc := scaled_toQ x d hx hd
  have hwf := scaled_WF x d hx hd
  unfold hueShift
  by_cases h1 : Frac.lt Frac.one (x.mul (Frac.one.add d))
  · have h1' : 1 < x.toQ * (1 + d.toQ) := by
      have := (Frac.lt_iff Frac.WF_one hwf).1 h1
      rwa [Frac.toQ_one, hsc] at this
    rw [if_pos h1, Frac.toQ_one, max_eq_right (by linarith), min_eq_left (by linarith)]
  · have h1' : ¬ 1 < x.toQ * (1 + d.toQ) := by
      intro hx1
      exact h1 ((Frac.lt_iff Frac.WF_one hwf).2 (by rw [Frac.toQ_one, hsc]; exact hx1))
    rw [if_neg h1]
    by_cases h2 : Frac.lt (x.mul (Frac.one.add d)) Frac.zero
    · have h2' : x.toQ * (1 + d.toQ) < 0 := by
        have := (Frac.lt_iff hwf Frac.WF_zero).1 h2
        rwa [Frac.toQ_zero, hsc] at this
      rw [if_pos h2, Frac.toQ_zero, max_eq_left (by linarith), min_eq_right (by norm_num)]
    · have h2' : ¬ x.toQ * (1 + d.toQ) < 0 := by
        intro hx2
        exact h2 ((Frac.lt_iff hwf Frac.WF_zero).2 (by rw [Frac.toQ_zero, hsc]; exact hx2))
      push_neg at h1' h2'
      rw [if_neg h2, hsc, max_eq_right h2', min_eq_right h1']

/-- update_hsv on a parsed hexadecimal color is exactly the
hex → rgb → hsv → shift/clamp → rgb → hex pipeline. -/
theorem update_hsv_pipeline (color : String) (hd sd vd r g b : Frac)
    (hh : containsHash color = true) (hp : hex_to_rgb color = some (r, g, b)) :
    update_hsv color hd sd vd =
      Except.ok (
        let hsv := rgb_to_hsv r g b
        let rgb := hsv_to_rgb (hueShift hsv.1 hd) (satShift hsv.2.1 sd) (valShift hsv.2.2 vd)
        rgb_to_hex rgb.1 rgb.2.1 rgb.2.2) := by
  unfold update_hsv hueShift satShift valShift
  rw [hh, hp]
  simp

theorem hexDigitChar_mem (n : ℕ) (h : n < 16) :
    hexChars.contains (hexDigitChar n) = true := by
  revert h
  revert n
  decide

theorem clamp255_lt (x : Frac) : clamp255 x < 256 := by
  unfold clamp255
  have h1 : min ((x.mul (Frac.ofInt 255)).trunc) 255 ≤ 255 := min_le_right _ _
  have h2 : max 0 (min ((x.mul (Frac.ofInt 255)).trunc) 255) ≤ 255 :=
    max_le (by norm_num) h1
  omega

/-- Every rgb_to_hex output is a hash sign followed by six lowercase
hexadecimal digits. -/
theorem rgb_to_hex_isHexColor (r g b : Frac) : isHexColor (rgb_to_hex r g b) := by
  have hr := clamp255_lt r
  have hg := clamp255_lt g
  have hb := clamp255_lt b
  refine ⟨rfl, rfl, ?_⟩
  have hlist : (rgb_to_hex r g b).toList.drop 1 =
      [hexDigitChar (clamp255 r / 16), hexDigitChar (clamp255 r % 16),
       hexDigitChar (clamp255 g / 16), hexDigitChar (clamp255 g % 16),
       hexDigitChar (clamp255 b / 16), hexDigitChar (clamp255 b % 16)] := rfl
  rw [hlist]
  simp only [List.all_cons, List.all_nil, Bool.and_eq_true, Bool.and_true]
  refine ⟨?_, ?_, ?_, ?_, ?_, ?_⟩ <;>
    exact hexDigitChar_mem _ (by omega)

/-!
Claim theorems.
-/

/-- C1: for every hexadecimal input color and percentage deltas hd, sd, vd,
ThemeColors.update_hsv converts the color to HSV, multiplies each of hue,
saturation and value by one plus the respective delta with clamping applied
to each component, converts back to RGB, and returns a hexadecimal color
string. -/
theorem update_hsv_is_clamped_hsv_scale (color : String) (hd sd vd r g b : Frac)
    (hh : containsHash color = true) (hp : hex_to_rgb color = some (r, g, b)) :
    ∃ out : String,
      update_hsv color hd sd vd = Except.ok out ∧
      out = (
        let hsv := rgb_to_hsv r g b
        let rgb := hsv_to_rgb (hueShift hsv.1 hd) (satShift hsv.2.1 sd) (valShift hsv.2.2 vd)
        rgb_to_hex rgb.1 rgb.2.1 rgb.2.2) ∧
      isHexColor out := by
  refine ⟨_, update_hsv_pipeline color hd sd vd r g b hh hp, rfl, ?_⟩
  exact rgb_to_hex_isHexColor _ _ _

/-- Witness for C1 at the concrete color "#ff0000" with zero deltas. -/
theorem update_hsv_is_clamped_hsv_scale_witness :
    ∃ out : String,
      update_hsv "#ff0000" Frac.zero Frac.zero Frac.zero = Except.ok out ∧
      out = (
        let hsv := rgb_to_hsv ⟨100, 100⟩ ⟨0, 100⟩ ⟨0, 100⟩
        let rgb := hsv_to_rgb (hueShift hsv.1 Frac.zero) (satShift hsv.2.1 Frac.zero)
          (valShift hsv.2.2 Frac.zero)
        rgb_to_hex rgb.1 rgb.2.1 rgb.2.2) ∧
      isHexColor out :=
  update_hsv_is_clamped_hsv_scale "#ff0000" Frac.zero Frac.zero Frac.zero
    ⟨100, 100⟩ ⟨0, 100⟩ ⟨0, 100⟩ (by decide) (by decide)

/-- C8: update_hsv succeeds only on inputs whose string form contains '#';
on every other input it raises TypeError, because line 230 calls
ThemeColors.normalize with a single argument while normalize requires the
color and the fallback. -/
theorem update_hsv_typeerror_without_hash (color : String) (hd sd vd : Frac) :
    (containsHash color = false →
      update_hsv color hd sd vd = Except.error PyErr.typeError) ∧
    (∀ out : String, update_hsv color hd sd vd = Except.ok out →
      containsHash color = true) := by
  constructor
  · intro h
    unfold update_hsv
    rw [h]
    simp
  · intro out h
    cases hcase : containsHash color
    · unfold update_hsv at h
      rw [hcase] at h
      simp at h
    · rfl

/-- Witness for C8 at the named color "red" (no '#'). -/
theorem update_hsv_typeerror_without_hash_witness :
    update_hsv "red" Frac.zero Frac.zero Frac.zero = Except.error PyErr.typeError :=
  (update_hsv_typeerror_without_hash "red" Frac.zero Frac.zero Frac.zero).1 (by decide)

/-- C9: update_hsv clamps asymmetrically: the scaled hue and saturation are
clamped into [0, 1], while an overflowing scaled value is replaced by 0.95
and a scaled value below 0.05 by 0.05, so an overflowing or underflowing
value shift never produces value 1 or value 0; the last conjunct places
these transforms inside update_hsv. -/
theorem update_hsv_asymmetric_clamping (h s v hd sd vd : Frac)
    (hwh : h.WF) (hws : s.WF) (hwv : v.WF)
    (hwhd : hd.WF) (hwsd : sd.WF) (hwvd : vd.WF) :
    ((hueShift h hd).toQ = min 1 (max 0 (h.toQ * (1 + hd.toQ)))) ∧
    ((satShift s sd).toQ = min 1 (max 0 (s.toQ * (1 + sd.toQ)))) ∧
    (1 < v.toQ * (1 + vd.toQ) → (valShift v vd).toQ = 95 / 100) ∧
    (v.toQ * (1 + vd.toQ) < 5 / 100 → (valShift v vd).toQ = 5 / 100) ∧
    ((1 < v.toQ * (1 + vd.toQ) ∨ v.toQ * (1 + vd.toQ) < 5 / 100) →
      (valShift v vd).toQ ≠ 1 ∧ (valShift v vd).toQ ≠ 0) ∧
    (∀ (color : String) (r g b : Frac), containsHash color = true →
      hex_to_rgb color = some (r, g, b) →
      update_hsv color hd sd vd =
        Except.ok (
          let hsv := rgb_to_hsv r g b
          let rgb := hsv_to_rgb (hueShift hsv.1 hd) (satShift hsv.2.1 sd)
            (valShift hsv.2.2 vd)
          rgb_to_hex rgb.1 rgb.2.1 rgb.2.2)) := by
  have hsc := scaled_toQ v vd hwv hwvd
  have hwf := scaled_WF v vd hwv hwvd
  have hq95 : (qf 95 100).toQ = 95 / 100 := by norm_num [qf, Frac.toQ]
  have hq5 : (qf 5 100).toQ = 5 / 100 := by norm_num [qf, Frac.toQ]
  have hwf95 : (qf 95 100).WF := by simp [qf, Frac.WF]
  have hwf5 : (qf 5 100).WF := by simp [qf, Frac.WF]
  have hval_over : 1 < v.toQ * (1 + vd.toQ) → (valShift v vd).toQ = 95 / 100 := by
    intro hover
    unfold valShift
    rw [if_pos ((Frac.lt_iff Frac.WF_one hwf).2 (by rw [Frac.toQ_one, hsc]; exact hover))]
    exact hq95
  have hval_under : v.toQ * (1 + vd.toQ) < 5 / 100 → (valShift v vd).toQ = 5 / 100 := by
    intro hunder
    unfold valShift
    have h1 : ¬ Frac.lt Frac.one (v.mul (Frac.one.add vd)) := by
      intro hx
      have := (Frac.lt_iff Frac.WF_one hwf).1 hx
      rw [Frac.toQ_one, hsc] at this
      linarith
    rw [if_neg h1,
      if_pos ((Frac.lt_iff hwf hwf5).2 (by rw [hq5, hsc]; exact hunder))]
    exact hq5
  refine ⟨hueShift_toQ h hd hwh hwhd, hueShift_toQ s sd hws hwsd,
    hval_over, hval_under, ?_, ?_⟩
  · intro hcase
    rcases hcase with hover | hunder
    · rw [hval_over hover]
      norm_num
    · rw [hval_under hunder]
      norm_num
  · intro color r g b hh hp
    exact update_hsv_pipeline color hd sd vd r g b hh hp

/-- Witness for C9: value 1/2 with delta 3 overflows and is clamped to
0.95. -/
theorem update_hsv_asymmetric_clamping_witness :
    (valShift (qf 1 2) (qf 3 1)).toQ = 95 / 100 :=
  (update_hsv_asymmetric_clamping (qf 1 2) (qf 1 2) (qf 1 2) (qf 3 1) (qf 3 1) (qf 3 1)
    (by simp [qf, Frac.WF]) (by simp [qf, Frac.WF]) (by simp [qf, Frac.WF])
    (by simp [qf, Frac.WF]) (by simp [qf, Frac.WF]) (by simp [qf, Frac.WF])).2.2.1
    (by norm_num [qf, Frac.toQ])

/-- C3: the theme input palette is exactly the 13 named colors listed by
label_iter; a ThemeColors value is determined by its values on exactly those
13 labels, and ThemeDefinition additionally carries the themetype and the
font. -/
theorem theme_palette_thirteen_colors :
    ThemeColors.label_iter =
      ["primary", "secondary", "success", "info", "warning", "danger",
       "bg", "fg", "selectbg", "selectfg", "border", "inputfg", "inputbg"] ∧
    ThemeColors.label_iter.length = 13 ∧
    (∀ tc : ThemeColors,
      ThemeColors.label_iter.map tc.get =
        [some tc.primary, some tc.secondary, some tc.success, some tc.info,
         some tc.warning, some tc.danger, some tc.bg, some tc.fg,
         some tc.selectbg, some tc.selectfg, some tc.border, some tc.inputfg,
         some tc.inputbg]) ∧
    (∀ c1 c2 : ThemeColors,
      (∀ l ∈ ThemeColors.label_iter, c1.get l = c2.get l) → c1 = c2) ∧
    (∀ (n ty f : String) (cols : ThemeColors),
      (ThemeDefinition.mk n ty f cols).name = n ∧
      (ThemeDefinition.mk n ty f cols).type = ty ∧
      (ThemeDefinition.mk n ty f cols).font = f ∧
      (ThemeDefinition.mk n ty f cols).colors = cols) := by
  refine ⟨rfl, rfl, fun tc => rfl, ?_, fun n ty f cols => ⟨rfl, rfl, rfl, rfl⟩⟩
  intro c1 c2 hl
  have h1 := hl "primary" (by decide)
  have h2 := hl "secondary" (by decide)
  have h3 := hl "success" (by decide)
  have h4 := hl "info" (by decide)
  have h5 := hl "warning" (by decide)
  have h6 := hl "danger" (by decide)
  have h7 := hl "bg" (by decide)
  have h8 := hl "fg" (by decide)
  have h9 := hl "selectbg" (by decide)
  have h10 := hl "selectfg" (by decide)
  have h11 := hl "border" (by decide)
  have h12 := hl "inputfg" (by decide)
  have h13 := hl "inputbg" (by decide)
  cases c1
  cases c2
  simp [ThemeColors.get] at h1 h2 h3 h4 h5 h6 h7 h8 h9 h10 h11 h12 h13
  simp_all

/-- Witness for C3: the extensionality conjunct applied to two concrete
equal palettes. -/
theorem theme_palette_thirteen_colors_witness :
    tc0 =
      (⟨"#2c3e50", "#95a5a6", "#18bc9c", "#3498db", "#f39c12", "#e74c3c",
        "#ffffff", "#212529", "#3498db", "#ffffff", "#ced4da", "#212529",
        "#ecf0f1"⟩ : ThemeColors) :=
  theme_palette_thirteen_colors.2.2.2.1 tc0
    ⟨"#2c3e50", "#95a5a6", "#18bc9c", "#3498db", "#f39c12", "#e74c3c",
     "#ffffff", "#212529", "#3498db", "#ffffff", "#ced4da", "#212529",
     "#ecf0f1"⟩ (by decide)

set_option maxRecDepth 16384

/-- C4: iterating a ThemeColors yields exactly the six accent labels in
order, and the themed loop of update_ttk_theme_settings creates, for each
widget kind it themes, exactly one named style per accent color (all 6 times
36 names distinct). -/
theorem six_accent_colors_themed_styles :
    ThemeColors.iterLabels =
      ["primary", "secondary", "success", "info", "warning", "danger"] ∧
    ThemeColors.iterLabels.length = 6 ∧
    (∀ c : String, themed_styles c =
      themedStyleSuffixes.map (fun suf => c ++ ("." ++ suf))) ∧
    themedStyleSuffixes.Nodup ∧
    themedLoopStyleNames.Nodup ∧
    themedLoopStyleNames.length =
      ThemeColors.iterLabels.length * themedStyleSuffixes.length := by
  exact ⟨rfl, rfl, fun c => rfl, by decide, by decide, rfl⟩

/-- Counterexample to C2: two calls of style_checkbutton with identical
palette, type, font and keyword arguments produce different settings,
because each call names its indicator element after a freshly drawn
uuid4. -/
theorem style_checkbutton_two_calls_differ :
    StylerTTK.style_checkbutton COLORMAP t0 none DEFAULT_FONT none none "TCheckbutton" 0 ≠
    StylerTTK.style_checkbutton COLORMAP t0 none DEFAULT_FONT none none "TCheckbutton" 1 := by
  decide

/-- C2 amended: style_button depends only on the palette, the light/dark
flag and its explicit arguments, and style_checkbutton is deterministic once
the drawn element identifier is fixed: equal palettes, types, arguments and
element identifiers give equal outputs. -/
theorem style_functions_deterministic_given_element (cmap : Colormap)
    (t1 t2 : ThemeDefinition) (hc : t1.colors = t2.colors) (hty : t1.type = t2.type)
    (anchor font styleB styleC : String) (bg fg ic : Option String) (e : ℕ) :
    StylerTTK.style_button cmap t1 anchor bg font fg styleB =
      StylerTTK.style_button cmap t2 anchor bg font fg styleB ∧
    StylerTTK.style_checkbutton cmap t1 bg font fg ic styleC e =
      StylerTTK.style_checkbutton cmap t2 bg font fg ic styleC e := by
  cases t1
  cases t2
  simp only at hc hty
  subst hc
  subst hty
  exact ⟨rfl, rfl⟩

/-- Witness for the amended C2: two themes sharing palette and type but
differing in name and font give identical button and checkbutton styles. -/
theorem style_functions_deterministic_given_element_witness :
    StylerTTK.style_button COLORMAP t0 "center" none DEFAULT_FONT none "TButton" =
      StylerTTK.style_button COLORMAP t0b "center" none DEFAULT_FONT none "TButton" ∧
    StylerTTK.style_checkbutton COLORMAP t0 none DEFAULT_FONT none none "TCheckbutton" 3 =
      StylerTTK.style_checkbutton COLORMAP t0b none DEFAULT_FONT none none "TCheckbutton" 3 :=
  style_functions_deterministic_given_element COLORMAP t0 t0b (by decide) (by decide)
    "center" DEFAULT_FONT "TButton" "TCheckbutton" none none none 3

/-- Inversion for a successful Except bind. -/
theorem except_bind_ok {ε α β : Type} (x : Except ε α) (f : α → Except ε β) (b : β)
    (h : (x >>= f) = Except.ok b) : ∃ a, x = Except.ok a ∧ f a = Except.ok b := by
  cases x with
  | error e => exact absurd h (by simp [Bind.bind, Except.bind])
  | ok a => exact ⟨a, rfl, h⟩

/-- Distinct suffixes stay distinct after a common string prepended. -/
theorem string_append_ne (e a b : String) (h : a ≠ b) : e ++ a ≠ e ++ b := by
  intro heq
  apply h
  have h2 := congrArg String.data heq
  simp only [String.data_append] at h2
  have h3 := List.append_cancel_left h2
  cases a
  cases b
  exact congrArg String.mk h3

/-- C6: style_button fills the widget state table from three colors derived
by HSV value shifts: pressed from the background with vd −0.2 (light) or
+0.2 (dark), hover with vd −0.1 or +0.1, and the disabled background from
inputbg with vd −0.2 or −0.3; disabled text keeps inputfg.  Three derived
state colors in total, within the 3 to 6 of the claim. -/
theorem style_button_state_table (cmap : Colormap) (theme : ThemeDefinition)
    (pr hv db : String)
    (_hty : theme.type = "light" ∨ theme.type = "dark")
    (hpr : update_hsv theme.colors.primary Frac.zero Frac.zero
      (if theme.type = "light" then qf (-2) 10 else qf 2 10) = Except.ok pr)
    (hhv : update_hsv theme.colors.primary Frac.zero Frac.zero
      (if theme.type = "light" then qf (-1) 10 else qf 1 10) = Except.ok hv)
    (hdb : update_hsv theme.colors.inputbg Frac.zero Frac.zero
      (if theme.type = "light" then qf (-2) 10 else qf (-3) 10) = Except.ok db) :
    ∃ s : Settings,
      StylerTTK.style_button cmap theme "center" none DEFAULT_FONT none "TButton" =
        Except.ok s ∧
      tableLookup s "TButton" "map" = some (pyDict
        [("foreground", pyStateList [("disabled", theme.colors.inputfg)]),
         ("background",
          pyStateList
            [("disabled", db), ("pressed !disabled", pr), ("hover !disabled", hv)]),
         ("bordercolor", pyStateList [("disabled", db), ("hover !disabled", hv)]),
         ("darkcolor",
          pyStateList
            [("disabled", db), ("pressed !disabled", pr), ("hover !disabled", hv)]),
         ("lightcolor",
          pyStateList
            [("disabled", db), ("pressed !disabled", pr), ("hover !disabled", hv)])]) ∧
      3 ≤ ([pr, hv, db] : List String).length ∧ ([pr, hv, db] : List String).length ≤ 6 := by
  unfold StylerTTK.style_button
  simp only []
  rw [show pyStr (ThemeColors.normalize cmap none theme.colors.primary (some theme.colors)) =
    theme.colors.primary from rfl]
  rw [hpr, hhv, hdb]
  exact ⟨_, rfl, rfl, by norm_num, by norm_num⟩

/-- Witness for C6 at the concrete light theme t0. -/
theorem style_button_state_table_witness :
    ∃ s : Settings,
      StylerTTK.style_button COLORMAP t0 "center" none DEFAULT_FONT none "TButton" =
        Except.ok s ∧
      tableLookup s "TButton" "map" = some (pyDict
        [("foreground", pyStateList [("disabled", t0.colors.inputfg)]),
         ("background",
          pyStateList
            [("disabled", "#bdbfc1"), ("pressed !disabled", "#22303f"),
             ("hover !disabled", "#273747")]),
         ("bordercolor",
          pyStateList [("disabled", "#bdbfc1"), ("hover !disabled", "#273747")]),
         ("darkcolor",
          pyStateList
            [("disabled", "#bdbfc1"), ("pressed !disabled", "#22303f"),
             ("hover !disabled", "#273747")]),
         ("lightcolor",
          pyStateList
            [("disabled", "#bdbfc1"), ("pressed !disabled", "#22303f"),
             ("hover !disabled", "#273747")])]) ∧
      3 ≤ (["#22303f", "#273747", "#bdbfc1"] : List String).length ∧
      (["#22303f", "#273747", "#bdbfc1"] : List String).length ≤ 6 :=
  style_button_state_table COLORMAP t0 "#22303f" "#273747" "#bdbfc1"
    (Or.inl rfl) (by decide) (by decide) (by decide)

/-- C7: style_checkbutton_images builds one bitmap per widget state — off,
on (a rounded rectangle bearing a checkmark), disabled — resizes each to
14 by 14 pixels and registers them under the keys element_cb_off,
element_cb_on and element_cb_disabled. -/
theorem style_checkbutton_images_three_states (theme : ThemeDefinition)
    (ic e dfg : String)
    (hdf : update_hsv theme.colors.inputbg Frac.zero Frac.zero
      (if theme.type = "light" then qf (-2) 10 else qf (-3) 10) = Except.ok dfg) :
    StylerTTK.style_checkbutton_images theme ic e = Except.ok
      [(e ++ "_cb_off",
        ⟨"RGBA", (14, 14),
         [.roundedRectangle [2, 2, 132, 132] 16 theme.colors.selectbg 3
           (if theme.type = "light" then theme.colors.inputbg else theme.colors.selectfg)]⟩),
       (e ++ "_cb_on",
        ⟨"RGBA", (14, 14),
         [.roundedRectangle [2, 2, 132, 132] 16 ic 3 ic,
          .text 20 8 "✓" 130 theme.colors.selectfg]⟩),
       (e ++ "_cb_disabled",
        ⟨"RGBA", (14, 14),
         [.roundedRectangle [2, 2, 132, 132] 16 dfg 3
           (if theme.type = "light" then theme.colors.inputbg else dfg)]⟩)] ∧
    (e ++ "_cb_off") ≠ (e ++ "_cb_on") ∧
    (e ++ "_cb_on") ≠ (e ++ "_cb_disabled") ∧
    (e ++ "_cb_off") ≠ (e ++ "_cb_disabled") := by
  refine ⟨?_, string_append_ne e _ _ (by decide), string_append_ne e _ _ (by decide),
    string_append_ne e _ _ (by decide)⟩
  unfold StylerTTK.style_checkbutton_images
  rw [hdf]
  rfl

/-- Witness for C7 at the concrete light theme t0. -/
theorem style_checkbutton_images_three_states_witness :
    StylerTTK.style_checkbutton_images t0 "#2c3e50" "7" = Except.ok
      [("7" ++ "_cb_off",
        ⟨"RGBA", (14, 14),
         [.roundedRectangle [2, 2, 132, 132] 16 t0.colors.selectbg 3
           (if t0.type = "light" then t0.colors.inputbg else t0.colors.selectfg)]⟩),
       ("7" ++ "_cb_on",
        ⟨"RGBA", (14, 14),
         [.roundedRectangle [2, 2, 132, 132] 16 "#2c3e50" 3 "#2c3e50",
          .text 20 8 "✓" 130 t0.colors.selectfg]⟩),
       ("7" ++ "_cb_disabled",
        ⟨"RGBA", (14, 14),
         [.roundedRectangle [2, 2, 132, 132] 16 "#bdbfc1" 3
           (if t0.type = "light" then t0.colors.inputbg else "#bdbfc1")]⟩)] ∧
    ("7" ++ "_cb_off") ≠ ("7" ++ "_cb_on") ∧
    ("7" ++ "_cb_on") ≠ ("7" ++ "_cb_disabled") ∧
    ("7" ++ "_cb_off") ≠ ("7" ++ "_cb_disabled") :=
  style_checkbutton_images_three_states t0 "#2c3e50" "7" "#bdbfc1" (by decide)

/-- A successful lookupTab yields an entry of the dictionary. -/
theorem lookupTab_mem (s : Settings) (k : String) (v : List (String × PyVal))
    (h : lookupTab s k = some v) : (k, v) ∈ s := by
  induction s with
  | nil => simp [lookupTab] at h
  | cons hd tl ih =>
    obtain ⟨k', v'⟩ := hd
    unfold lookupTab at h
    by_cases hk : k' = k
    · rw [if_pos hk] at h
      subst hk
      rw [Option.some_inj.1 h]
      exact List.mem_cons_self _ _
    · rw [if_neg hk] at h
      exact List.mem_cons_of_mem _ (ih h)

/-- C5: every style function emits only configure, map, layout and element
create tables: the transcribed table-key skeletons of all settings-returning
style functions stay inside the four kinds, the fully modelled style_button
and style_checkbutton do so for all inputs, the property is preserved by the
dict.update accumulation, and create_theme hands the accumulated dictionary
with the theme name and parent "clam" to the toolkit call. -/
theorem style_settings_table_keys :
    (∀ f : StyleFn, ∀ k ∈ tableKeys f, k ∈ allowedTableKeys) ∧
    (∀ (cmap : Colormap) (theme : ThemeDefinition) (anchor : String)
        (bg : Option String) (font : String) (fg : Option String)
        (style : String) (s : Settings),
      StylerTTK.style_button cmap theme anchor bg font fg style = Except.ok s →
      settingsKeysIn s allowedTableKeys) ∧
    (∀ (cmap : Colormap) (theme : ThemeDefinition) (bg : Option String)
        (font : String) (fg ic : Option String) (style : String) (e : ℕ)
        (s : Settings) (imgs : List (String × Img)),
      StylerTTK.style_checkbutton cmap theme bg font fg ic style e =
        Except.ok (s, imgs) →
      settingsKeysIn s allowedTableKeys) ∧
    (∀ d e : Settings, settingsKeysIn d allowedTableKeys →
      settingsKeysIn e allowedTableKeys →
      settingsKeysIn (updateSettings d e) allowedTableKeys) ∧
    (∀ (theme : ThemeDefinition) (s : Settings),
      StylerTTK.create_theme theme s = (theme.name, "clam", s)) := by
  refine ⟨?_, ?_, ?_, ?_, fun theme s => rfl⟩
  · intro f
    cases f <;> decide
  · intro cmap theme anchor bg font fg style s hok
    unfold StylerTTK.style_button at hok
    simp only [] at hok
    obtain ⟨pr, hpr, hok⟩ := except_bind_ok _ _ _ hok
    obtain ⟨hv, hhv, hok⟩ := except_bind_ok _ _ _ hok
    obtain ⟨db, hdb, hok⟩ := except_bind_ok _ _ _ hok
    have hs := Except.ok.inj hok
    rw [← hs]
    intro p hp q hq
    simp only [List.mem_singleton] at hp
    subst hp
    simp only [List.mem_cons, List.not_mem_nil, or_false] at hq
    rcases hq with hq | hq
    · rw [hq]
      show "configure" ∈ allowedTableKeys
      decide
    · rw [hq]
      show "map" ∈ allowedTableKeys
      decide
  · intro cmap theme bg font fg ic style e s imgs hok
    unfold StylerTTK.style_checkbutton at hok
    simp only [] at hok
    obtain ⟨dis, hdis, hok⟩ := except_bind_ok _ _ _ hok
    obtain ⟨imgv, himg, hok⟩ := except_bind_ok _ _ _ hok
    obtain ⟨act, hact, hok⟩ := except_bind_ok _ _ _ hok
    have hpair := Except.ok.inj hok
    have hs := congrArg Prod.fst hpair
    simp only [] at hs
    rw [← hs]
    intro p hp q hq
    simp only [List.mem_cons, List.not_mem_nil, or_false] at hp
    rcases hp with hp | hp <;> rw [hp] at hq <;>
      simp only [List.mem_cons, List.not_mem_nil, or_false] at hq
    · rw [hq]
      show "element create" ∈ allowedTableKeys
      decide
    · rcases hq with hq | hq | hq
      · rw [hq]
        show "configure" ∈ allowedTableKeys
        decide
      · rw [hq]
        show "layout" ∈ allowedTableKeys
        decide
      · rw [hq]
        show "map" ∈ allowedTableKeys
        decide
  · intro d e hd he p hp q hq
    unfold updateSettings at hp
    rcases List.mem_append.1 hp with hmem | hmem
    · obtain ⟨kv, hkv, heq⟩ := List.mem_map.1 hmem
      rcases hfind : lookupTab e kv.1 with _ | v
      · rw [hfind] at heq
        rw [← heq] at hq
        exact hd kv hkv q hq
      · rw [hfind] at heq
        rw [← heq] at hq
        exact he (kv.1, v) (lookupTab_mem e kv.1 v hfind) q hq
    · exact he p (List.mem_filter.1 hmem).1 q hq

/-- Witness for C5: the update-accumulation conjunct and the theme-creation
conjunct at concrete dictionaries. -/
theorem style_settings_table_keys_witness :
    settingsKeysIn
      (updateSettings [("TButton", [("configure", PyVal.pynone)])]
        [("TButton", [("map", PyVal.pynone)]),
         ("TFrame", [("layout", PyVal.pynone)])])
      allowedTableKeys ∧
    StylerTTK.create_theme t0 [] = ("flatly", "clam", []) :=
  ⟨style_settings_table_keys.2.2.2.1
      [("TButton", [("configure", PyVal.pynone)])]
      [("TButton", [("map", PyVal.pynone)]), ("TFrame", [("layout", PyVal.pynone)])]
      (by decide) (by decide),
   style_settings_table_keys.2.2.2.2 t0 []⟩

/-- Counterexample to C10: a color that merely contains an accent name
("primaryx") makes normalize return Python None instead of the fallback the
claim promises, and a recognized named color ("tomato", rgb 255 99 71) is
not converted to its hex value #ff6347 but saturated to #ffffff, because
rgb_to_hex scales the 0..255 channels by 255 again. -/
theorem normalize_claim_counterexample :
    ThemeColors.normalize COLORMAP (some "primaryx") "#123456" (some tc0) = none ∧
    normalizeClaim COLORMAP (some "primaryx") "#123456" (some tc0) = some "#123456" ∧
    ThemeColors.normalize COLORMAP (some "primaryx") "#123456" (some tc0) ≠
      normalizeClaim COLORMAP (some "primaryx") "#123456" (some tc0) ∧
    ThemeColors.normalize COLORMAP (some "tomato") "#123456" none = some "#ffffff" ∧
    normalizeClaim COLORMAP (some "tomato") "#123456" none = some "#ff6347" ∧
    ThemeColors.normalize COLORMAP (some "tomato") "#123456" none ≠
      normalizeClaim COLORMAP (some "tomato") "#123456" none := by
  decide

/-- C10 amended: normalize is total over its optional-string inputs and
follows this case analysis: fallback for empty or missing color; the color
itself, unvalidated, when it contains '#'; the theme-colors dictionary
lookup of the whole color string — which is Python None for a string that
merely contains an accent name — whenever the color contains one of the six
accent names as a substring and theme colors are provided; rgb_to_hex over
the colormap channels (saturating every nonzero channel to 255) for a
recognized named color; and the fallback in every remaining case. -/
theorem normalize_case_analysis (cmap : Colormap) (color : Option String)
    (fallback : String) (tcs : Option ThemeColors) :
    (color = none → ThemeColors.normalize cmap color fallback tcs = some fallback) ∧
    (color = some "" → ThemeColors.normalize cmap color fallback tcs = some fallback) ∧
    (∀ c : String, color = some c → containsHash c = true →
      ThemeColors.normalize cmap color fallback tcs = some c) ∧
    (∀ (c : String) (tc : ThemeColors), color = some c → tcs = some tc → c ≠ "" →
      containsHash c = false → colorPatternSearch c = true →
      ThemeColors.normalize cmap color fallback tcs = tc.get c) ∧
    (∀ (c : String) (r g b : ℤ), color = some c → c ≠ "" → containsHash c = false →
      (tcs = none ∨ colorPatternSearch c = false) →
      Colormap.find cmap c = some (r, g, b) →
      ThemeColors.normalize cmap color fallback tcs =
        some (rgb_to_hex (Frac.ofInt r) (Frac.ofInt g) (Frac.ofInt b))) ∧
    (∀ c : String, color = some c → c ≠ "" → containsHash c = false →
      (tcs = none ∨ colorPatternSearch c = false) → Colormap.find cmap c = none →
      ThemeColors.normalize cmap color fallback tcs = some fallback) := by
  refine ⟨?_, ?_, ?_, ?_, ?_, ?_⟩
  · intro h
    subst h
    rfl
  · intro h
    subst h
    rfl
  · intro c hc hh
    subst hc
    have hne : ¬ c = "" := by
      intro h0
      subst h0
      exact absurd hh (by decide)
    show (if c = "" then some fallback
      else if containsHash c = true then some c
      else
        match tcs, colorPatternSearch c with
        | some tc, true => tc.get c
        | some _, false => normalizeNamed cmap c fallback
        | none, _ => normalizeNamed cmap c fallback) = some c
    rw [if_neg hne, if_pos hh]
  · intro c tc hc htc hne hkh hpat
    subst hc
    subst htc
    show (if c = "" then some fallback
      else if containsHash c = true then some c
      else
        match some tc, colorPatternSearch c with
        | some tc, true => tc.get c
        | some _, false => normalizeNamed cmap c fallback
        | none, _ => normalizeNamed cmap c fallback) = tc.get c
    rw [if_neg hne, if_neg (show ¬ containsHash c = true by simp [hkh]), hpat]
  · intro c r g b hc hne hkh hopt hfind
    subst hc
    have hnamed : normalizeNamed cmap c fallback =
        some (rgb_to_hex (Frac.ofInt r) (Frac.ofInt g) (Frac.ofInt b)) := by
      unfold normalizeNamed
      rw [if_pos hkh, hfind]
    rcases hopt with htcs | hpat'
    · subst htcs
      show (if c = "" then some fallback
        else if containsHash c = true then some c
        else normalizeNamed cmap c fallback) =
          some (rgb_to_hex (Frac.ofInt r) (Frac.ofInt g) (Frac.ofInt b))
      rw [if_neg hne, if_neg (show ¬ containsHash c = true by simp [hkh]), hnamed]
    · cases tcs with
      | none =>
        show (if c = "" then some fallback
          else if containsHash c = true then some c
          else normalizeNamed cmap c fallback) =
            some (rgb_to_hex (Frac.ofInt r) (Frac.ofInt g) (Frac.ofInt b))
        rw [if_neg hne, if_neg (show ¬ containsHash c = true by simp [hkh]), hnamed]
      | some tc =>
        show (if c = "" then some fallback
          else if containsHash c = true then some c
          else
            match some tc, colorPatternSearch c with
            | some tc, true => tc.get c
            | some _, false => normalizeNamed cmap c fallback
            | none, _ => normalizeNamed cmap c fallback) =
            some (rgb_to_hex (Frac.ofInt r) (Frac.ofInt g) (Frac.ofInt b))
        rw [if_neg hne, if_neg (show ¬ containsHash c = true by simp [hkh]), hpat']
        exact hnamed
  · intro c hc hne hkh hopt hfind
    subst hc
    have hnamed : normalizeNamed cmap c fallback = some fallback := by
      unfold normalizeNamed
      rw [if_pos hkh, hfind]
    rcases hopt with htcs | hpat'
    · subst htcs
      show (if c = "" then some fallback
        else if containsHash c = true then some c
        else normalizeNamed cmap c fallback) = some fallback
      rw [if_neg hne, if_neg (show ¬ containsHash c = true by simp [hkh]), hnamed]
    · cases tcs with
      | none =>
        show (if c = "" then some fallback
          else if containsHash c = true then some c
          else normalizeNamed cmap c fallback) = some fallback
        rw [if_neg hne, if_neg (show ¬ containsHash c = true by simp [hkh]), hnamed]
      | some tc =>
        show (if c = "" then some fallback
          else if containsHash c = true then some c
          else
            match some tc, colorPatternSearch c with
            | some tc, true => tc.get c
            | some _, false => normalizeNamed cmap c fallback
            | none, _ => normalizeNamed cmap c fallback) = some fallback
        rw [if_neg hne, if_neg (show ¬ containsHash c = true by simp [hkh]), hpat']
        exact hnamed

/-- Witness for the amended C10: the accent-substring conjunct at the exact
accent name "primary", which resolves through the palette. -/
theorem normalize_case_analysis_witness :
    ThemeColors.normalize COLORMAP (some "primary") "#ffffff" (some tc0) =
      tc0.get "primary" :=
  (normalize_case_analysis COLORMAP (some "primary") "#ffffff" (some tc0)).2.2.2.1
    "primary" tc0 rfl rfl (by decide) (by decide) (by decide)
